import Mathlib

/-!
Verification of the istio-cni eligibility decision engine and redirect
pipeline, shallowly embedded from `cmd/istio-cni/main.go`.

The embedding covers `cmdAdd` from the point where the configuration and
the Kubernetes CNI arguments have been parsed (JSON decoding and
`types.LoadArgs` are external collaborators whose results are inputs
here).  External collaborators (`newKubeClient`, `getKubePodInfo`, the
production executor `redirect.doRedirect`, and the test override hook
`setupRedirect`) are supplied as oracle values/functions in a
`Collaborators` record.  Process-global mutable configuration
(`nsSetupBinDir`, `nsSetupProg`) is threaded explicitly as a `Globals`
record; `cmdAdd` returns the updated globals exactly as the Go code
assigns them.  A `Trace` record counts the externally observable calls
(client creation, metadata query, spec construction, executor
invocations) so that "no metadata query is performed" and "the executor
is invoked exactly once" are statable.
-/

namespace IstioCni

/-- Go `strconv.ParseBool`: accepts exactly the twelve literals below,
anything else is a parse error (`none`). -/
def parseBool (s : String) : Option Bool :=
  if s = "1" ∨ s = "t" ∨ s = "T" ∨ s = "TRUE" ∨ s = "true" ∨ s = "True" then some true
  else if s = "0" ∨ s = "f" ∨ s = "F" ∨ s = "FALSE" ∨ s = "false" ∨ s = "False" then some false
  else none

/-- `injectAnnotationKey = "sidecar.istio.io/inject"` (main.go line 39). -/
def injectAnnotationKey : String := "sidecar.istio.io/inject"

/-- `sidecarStatusKey = "sidecar.istio.io/status"` (main.go line 40). -/
def sidecarStatusKey : String := "sidecar.istio.io/status"

/-- The process-global mutable configuration variables of main.go
(lines 35-37): `nsSetupBinDir` and `nsSetupProg`. -/
structure Globals where
  nsSetupBinDir : String
  nsSetupProg : String
deriving DecidableEq, Repr

/-- Initial values of the globals (main.go lines 36-37). -/
def initialGlobals : Globals := ⟨"/opt/cni/bin", "istio-iptables.sh"⟩

/-- The `Kubernetes` configuration struct (the fields `cmdAdd` reads). -/
structure Kubernetes where
  excludeNamespaces : List String
  cniBinDir : String
  iptablesScript : String
deriving DecidableEq, Repr

/-- `PluginConf` as consumed by `cmdAdd` after `parseConfig`:
the Kubernetes section and the (already converted) previous result,
modelled opaquely as a string payload. -/
structure PluginConf where
  kubernetes : Kubernetes
  prevResult : Option String
deriving DecidableEq, Repr

/-- The CNI arguments `cmdAdd` reads from `skel.CmdArgs`. -/
structure CmdArgs where
  containerID : String
  netns : String
deriving DecidableEq, Repr

/-- `K8sArgs` fields used by `cmdAdd` (pod name and namespace). -/
structure K8sArgs where
  K8S_POD_NAME : String
  K8S_POD_NAMESPACE : String
deriving DecidableEq, Repr

/-- The tuple returned by the external metadata query `getKubePodInfo`
(the third return value, unused by `cmdAdd`, is omitted). -/
structure PodInfo where
  hasProxy : Bool
  containers : List String
  annotations : List (String × String)
  ports : List String
  proxyUID : Int
  proxyGID : Int
deriving DecidableEq, Repr

/-- The spec's `Decision` audit variants.  `excludedByInject` stands for
the spec's `ExcludedByInjectAnnotation`. -/
inductive Decision where
  | allow
  | excludedByNamespace
  | excludedNoPod
  | excludedNoProxyOrSingleContainer
  | excludedByInject
  | excludedMissingSidecarStatus
deriving DecidableEq, Repr

/-- Construction error of the redirect-spec builder. -/
inductive RedirectErr where
  | invalidRedirectParameters
deriving DecidableEq, Repr

/-- The validated redirect specification. -/
structure RedirectSpec where
  proxyUID : Int
  proxyGID : Int
  ports : List String
  annotations : List (String × String)
deriving DecidableEq, Repr

/-- Modelled from the spec: `NewRedirect` (the RedirectSpecBuilder) is
defined in a repository file that is not under src/ (main.go only calls
it).  Per spec section 4.3: `ports` must be non-empty (an empty declared
port list is `InvalidRedirectParameters`); `proxyUID` and `proxyGID`
must be valid non-negative identity values; on success the inputs are
copied verbatim, ports in declaration order. -/
def NewRedirect (proxyUID proxyGID : Int) (ports : List String)
    (annotations : List (String × String)) : Except RedirectErr RedirectSpec :=
  if ports = [] then .error .invalidRedirectParameters
  else if proxyUID < 0 ∨ proxyGID < 0 then .error .invalidRedirectParameters
  else .ok ⟨proxyUID, proxyGID, ports, annotations⟩

/-- The external collaborators of one ADD invocation: the result of
Kubernetes client creation, the result of the pod-metadata query for
this pod, the production executor (`redirect.doRedirect`), and the
optional unit-test override hook (`setupRedirect`, main.go line 44). -/
structure Collaborators where
  newKubeClient : Except String Unit
  getKubePodInfo : Except String PodInfo
  doRedirect : RedirectSpec → String → Except String Unit
  setupRedirect : Option (String → List String → Except String Unit)

/-- Errors an ADD invocation can terminate with, tagged by the stage
that produced them. -/
inductive AddErr where
  | clientErr (msg : String)
  | metadataErr (msg : String)
  | redirectParamsErr (e : RedirectErr)
  | executorErr (msg : String)
deriving DecidableEq, Repr

/-- The CNI-visible success payload: a freshly minted empty result or a
pass-through of the previous chain result (main.go lines 236-244). -/
inductive CNIResult where
  | fresh
  | passthrough (prev : String)
deriving DecidableEq, Repr

/-- Counts of externally observable calls made during one ADD. -/
structure Trace where
  clientCreates : Nat
  queryCount : Nat
  specBuilds : Nat
  overrideCalls : Nat
  doRedirectCalls : Nat
deriving DecidableEq, Repr

/-- Total executor invocations (override hook or production executor). -/
def Trace.execCalls (t : Trace) : Nat := t.overrideCalls + t.doRedirectCalls

deriving instance DecidableEq for Except

/-- Result of one ADD invocation: terminal result, updated globals,
and the call trace. -/
structure AddOutcome where
  result : Except AddErr CNIResult
  globals : Globals
  trace : Trace
deriving DecidableEq, Repr

/-- main.go lines 208-216: the inject-control annotation check.  True
iff the key is present, its value parses as a boolean, and that boolean
is false.  A present-but-unparsable value is ignored (`err == nil`
guard), as is a value parsing to true. -/
def injectDisabled (annotations : List (String × String)) : Bool :=
  match annotations.lookup injectAnnotationKey with
  | some val =>
    match parseBool val with
    | some injectEnabled => !injectEnabled
    | none => false
  | none => false

/-- main.go lines 217-220: the sidecar-status annotation check. True
iff the key is absent (only presence is inspected, never the value). -/
def sidecarStatusAbsent (annotations : List (String × String)) : Bool :=
  (annotations.lookup sidecarStatusKey).isNone

/-- The ordered list of exclusion reasons logged by `cmdAdd` inside the
`hasProxy && len(containers) > 1` branch.  Both checks always run
(main.go lines 208-220 execute in sequence; neither is skipped when the
other already set `excludePod`), so both reasons can appear, the
inject-disabled one first. -/
def loggedExclusions (annotations : List (String × String)) : List Decision :=
  (if injectDisabled annotations then [.excludedByInject] else []) ++
  (if sidecarStatusAbsent annotations then [.excludedMissingSidecarStatus] else [])

/-- The `excludePod` flag as computed by main.go lines 208-220 inside
the proxy/multi-container branch: inject-disabled or sidecar-status
absent. -/
def excludeByAnnotations (annotations : List (String × String)) : Bool :=
  injectDisabled annotations || sidecarStatusAbsent annotations

/-- The eligibility decision of `cmdAdd` for a queried pod, as a
`Decision` audit value: outside the `hasProxy && len(containers) > 1`
branch the pod is `excludedNoProxyOrSingleContainer` (the annotation
checks never run there); inside it, the decision is `allow` when no
exclusion fires, otherwise the first exclusion reason logged. -/
def evalEligibility (info : PodInfo) : Decision :=
  if info.hasProxy ∧ info.containers.length > 1 then
    match loggedExclusions info.annotations with
    | [] => .allow
    | d :: _ => d
  else .excludedNoProxyOrSingleContainer

/-- main.go lines 179-184: the namespace-exclusion scan — a linear walk
over `conf.Kubernetes.ExcludeNamespaces` comparing with Go `==`
(case-sensitive exact string equality). -/
def namespaceExcluded (excludeNamespaces : List String) (podNamespace : String) : Bool :=
  excludeNamespaces.contains podNamespace

/-- `cmdAdd` (main.go lines 140-245) from the point after `parseConfig`
and `types.LoadArgs` succeeded.  Mirrors the source control flow:
global-config assignment (lines 161-166), the Kubernetes-managed gate
(line 178), the namespace-exclusion scan (lines 179-184), client
creation and metadata query (lines 187-196), the proxy/container-count
branch (line 198), the two annotation checks (lines 208-220), redirect
construction (line 223), and the executor dispatch (lines 227-231) where
a non-nil `setupRedirect` override is called with its error discarded
(`_ =`) while the production `doRedirect` error is returned.  Every path
ends in `types.PrintResult` of the fresh-or-passthrough result
(lines 236-245). -/
def cmdAdd (g : Globals) (conf : PluginConf) (k8sArgs : K8sArgs) (args : CmdArgs)
    (c : Collaborators) : AddOutcome :=
  let g1 : Globals :=
    ⟨if conf.kubernetes.cniBinDir ≠ "" then conf.kubernetes.cniBinDir else g.nsSetupBinDir,
     if conf.kubernetes.iptablesScript ≠ "" then conf.kubernetes.iptablesScript else g.nsSetupProg⟩
  let podName := k8sArgs.K8S_POD_NAME
  let podNamespace := k8sArgs.K8S_POD_NAMESPACE
  let success : Except AddErr CNIResult :=
    match conf.prevResult with
    | none => .ok .fresh
    | some r => .ok (.passthrough r)
  if podNamespace ≠ "" ∧ podName ≠ "" then
    if namespaceExcluded conf.kubernetes.excludeNamespaces podNamespace then
      ⟨success, g1, ⟨0, 0, 0, 0, 0⟩⟩
    else
      match c.newKubeClient with
      | .error e => ⟨.error (.clientErr e), g1, ⟨1, 0, 0, 0, 0⟩⟩
      | .ok _ =>
        match c.getKubePodInfo with
        | .error e => ⟨.error (.metadataErr e), g1, ⟨1, 1, 0, 0, 0⟩⟩
        | .ok info =>
          if info.hasProxy ∧ info.containers.length > 1 then
            if excludeByAnnotations info.annotations then
              ⟨success, g1, ⟨1, 1, 0, 0, 0⟩⟩
            else
              match NewRedirect info.proxyUID info.proxyGID info.ports info.annotations with
              | .error e => ⟨.error (.redirectParamsErr e), g1, ⟨1, 1, 1, 0, 0⟩⟩
              | .ok redirect =>
                match c.setupRedirect with
                | some f =>
                  match f args.netns info.ports with
                  | _ => ⟨success, g1, ⟨1, 1, 1, 1, 0⟩⟩
                | none =>
                  match c.doRedirect redirect args.netns with
                  | .error e => ⟨.error (.executorErr e), g1, ⟨1, 1, 1, 0, 1⟩⟩
                  | .ok _ => ⟨success, g1, ⟨1, 1, 1, 0, 1⟩⟩
          else
            ⟨success, g1, ⟨1, 1, 0, 0, 0⟩⟩
  else
    ⟨success, g1, ⟨0, 0, 0, 0, 0⟩⟩

/-! Helper lemmas shared by the claim theorems. -/

lemma injectDisabled_of_absent (ann : List (String × String))
    (h : ann.lookup injectAnnotationKey = none) : injectDisabled ann = false := by
  simp [injectDisabled, h]

lemma injectDisabled_of_parse (ann : List (String × String)) (v : String) (b : Bool)
    (h : ann.lookup injectAnnotationKey = some v) (hp : parseBool v = some b) :
    injectDisabled ann = !b := by
  simp [injectDisabled, h, hp]

lemma injectDisabled_of_parse_fail (ann : List (String × String)) (v : String)
    (h : ann.lookup injectAnnotationKey = some v) (hp : parseBool v = none) :
    injectDisabled ann = false := by
  simp [injectDisabled, h, hp]

lemma sidecarStatusAbsent_of_present (ann : List (String × String))
    (h : (ann.lookup sidecarStatusKey).isSome = true) :
    sidecarStatusAbsent ann = false := by
  cases hl : ann.lookup sidecarStatusKey with
  | none => rw [hl] at h; simp at h
  | some v => simp [sidecarStatusAbsent, hl]

lemma excludeByAnnotations_eq_false (ann : List (String × String))
    (h1 : injectDisabled ann = false) (h2 : sidecarStatusAbsent ann = false) :
    excludeByAnnotations ann = false := by
  simp [excludeByAnnotations, h1, h2]

lemma loggedExclusions_eq_nil (ann : List (String × String))
    (h1 : injectDisabled ann = false) (h2 : sidecarStatusAbsent ann = false) :
    loggedExclusions ann = [] := by
  simp [loggedExclusions, h1, h2]

/-! Claim theorems. -/

/-- Claim C1: a PodContext with at least two containers, a proxy, the
inject-control key absent or mapped to "true", and the sidecar-status
key present is decided `allow`; on that ADD path (gate passed, client
and metadata query succeeded, redirect parameters valid) a RedirectSpec
is built and the executor — override hook or production executor — is
invoked exactly once. -/
theorem c1_allow_builds_spec_and_executes_once
    (g : Globals) (conf : PluginConf) (k : K8sArgs) (a : CmdArgs) (c : Collaborators)
    (info : PodInfo)
    (hns : k.K8S_POD_NAMESPACE ≠ "") (hname : k.K8S_POD_NAME ≠ "")
    (hexc : namespaceExcluded conf.kubernetes.excludeNamespaces k.K8S_POD_NAMESPACE = false)
    (hclient : c.newKubeClient = .ok ())
    (hquery : c.getKubePodInfo = .ok info)
    (hproxy : info.hasProxy = true)
    (hcount : info.containers.length > 1)
    (hinj : info.annotations.lookup injectAnnotationKey = none ∨
            info.annotations.lookup injectAnnotationKey = some "true")
    (hstatus : (info.annotations.lookup sidecarStatusKey).isSome = true)
    (hports : info.ports ≠ [])
    (huid : 0 ≤ info.proxyUID) (hgid : 0 ≤ info.proxyGID) :
    evalEligibility info = .allow ∧
    (∃ spec, NewRedirect info.proxyUID info.proxyGID info.ports info.annotations = .ok spec) ∧
    (cmdAdd g conf k a c).trace.execCalls = 1 := by
  have hinjF : injectDisabled info.annotations = false := by
    rcases hinj with h | h
    · exact injectDisabled_of_absent _ h
    · exact injectDisabled_of_parse _ _ true h (by decide)
  have hstatF : sidecarStatusAbsent info.annotations = false :=
    sidecarStatusAbsent_of_present _ hstatus
  have hannF : excludeByAnnotations info.annotations = false :=
    excludeByAnnotations_eq_false _ hinjF hstatF
  have hnil : loggedExclusions info.annotations = [] :=
    loggedExclusions_eq_nil _ hinjF hstatF
  have hred : NewRedirect info.proxyUID info.proxyGID info.ports info.annotations =
      .ok ⟨info.proxyUID, info.proxyGID, info.ports, info.annotations⟩ := by
    simp [NewRedirect, hports, not_lt.mpr huid, not_lt.mpr hgid]
  refine ⟨?_, ⟨_, hred⟩, ?_⟩
  · simp [evalEligibility, hproxy, hcount, hnil]
  · cases hs : c.setupRedirect with
    | some f =>
      simp [cmdAdd, hns, hname, hexc, hclient, hquery, hproxy, hcount, hannF, hred, hs,
        Trace.execCalls]
    | none =>
      cases hd : c.doRedirect ⟨info.proxyUID, info.proxyGID, info.ports, info.annotations⟩
          a.netns with
      | error e =>
        simp [cmdAdd, hns, hname, hexc, hclient, hquery, hproxy, hcount, hannF, hred, hs, hd,
          Trace.execCalls]
      | ok u =>
        simp [cmdAdd, hns, hname, hexc, hclient, hquery, hproxy, hcount, hannF, hred, hs, hd,
          Trace.execCalls]

/-- Pod metadata for the C1 witness: two containers, proxy present,
sidecar-status annotation present, one declared port, identity 1337. -/
def w1Info : PodInfo :=
  ⟨true, ["app", "istio-proxy"], [(sidecarStatusKey, "injected")], ["9080"], 1337, 1337⟩

/-- Collaborators for the C1 witness: client creation and metadata query
succeed, production executor succeeds, no override hook installed. -/
def w1Collab : Collaborators := ⟨.ok (), .ok w1Info, fun _ _ => .ok (), none⟩

/-- Plugin configuration with no exclusions, no overrides and no
previous result. -/
def confEmpty : PluginConf := ⟨⟨[], "", ""⟩, none⟩

/-- Witness for C1 at a concrete pod. -/
theorem c1_witness :
    evalEligibility w1Info = .allow ∧
    (∃ spec, NewRedirect w1Info.proxyUID w1Info.proxyGID w1Info.ports w1Info.annotations =
      .ok spec) ∧
    (cmdAdd initialGlobals confEmpty ⟨"podA", "default"⟩ ⟨"cid0", "netnsA"⟩ w1Collab).trace.execCalls
      = 1 :=
  c1_allow_builds_spec_and_executes_once initialGlobals confEmpty ⟨"podA", "default"⟩
    ⟨"cid0", "netnsA"⟩ w1Collab w1Info (by decide) (by decide) (by decide) rfl rfl rfl
    (by decide) (Or.inl (by decide)) (by decide) (by decide) (by decide) (by decide)

/-- Claim C2: a pod with no proxy, or with at most one container, is
decided `excludedNoProxyOrSingleContainer` whatever its annotations, and
no redirect is attempted: the spec builder and the executor are never
invoked on any ADD whose metadata query returns that pod. -/
theorem c2_no_proxy_or_single_container_excluded
    (g : Globals) (conf : PluginConf) (k : K8sArgs) (a : CmdArgs) (c : Collaborators)
    (info : PodInfo)
    (hnp : info.hasProxy = false ∨ info.containers.length ≤ 1)
    (hquery : c.getKubePodInfo = .ok info) :
    evalEligibility info = .excludedNoProxyOrSingleContainer ∧
    (cmdAdd g conf k a c).trace.specBuilds = 0 ∧
    (cmdAdd g conf k a c).trace.execCalls = 0 := by
  have hbranch : ¬(info.hasProxy = true ∧ info.containers.length > 1) := by
    rcases hnp with h | h
    · simp [h]
    · exact fun hc => absurd hc.2 (Nat.not_lt.mpr h)
  refine ⟨by simp [evalEligibility, hbranch], ?_⟩
  by_cases hgate : k.K8S_POD_NAMESPACE ≠ "" ∧ k.K8S_POD_NAME ≠ ""
  · by_cases hexcl : namespaceExcluded conf.kubernetes.excludeNamespaces k.K8S_POD_NAMESPACE
        = true
    · simp [cmdAdd, hgate, hexcl, Trace.execCalls]
    · cases hc : c.newKubeClient with
      | error e => simp [cmdAdd, hgate, hexcl, hc, Trace.execCalls]
      | ok u => simp [cmdAdd, hgate, hexcl, hc, hquery, hbranch, Trace.execCalls]
  · simp [cmdAdd, hgate, Trace.execCalls]

/-- Pod metadata for the C2 witness: proxy present but a single
container, annotations that would otherwise allow the redirect. -/
def w2Info : PodInfo :=
  ⟨true, ["istio-proxy"], [(sidecarStatusKey, "injected")], ["9080"], 1337, 1337⟩

/-- Collaborators for the C2 witness. -/
def w2Collab : Collaborators := ⟨.ok (), .ok w2Info, fun _ _ => .ok (), none⟩

/-- Witness for C2 at a concrete single-container pod. -/
theorem c2_witness :
    evalEligibility w2Info = .excludedNoProxyOrSingleContainer ∧
    (cmdAdd initialGlobals confEmpty ⟨"podA", "default"⟩ ⟨"cid0", "netnsA"⟩ w2Collab).trace.specBuilds
      = 0 ∧
    (cmdAdd initialGlobals confEmpty ⟨"podA", "default"⟩ ⟨"cid0", "netnsA"⟩ w2Collab).trace.execCalls
      = 0 :=
  c2_no_proxy_or_single_container_excluded initialGlobals confEmpty ⟨"podA", "default"⟩
    ⟨"cid0", "netnsA"⟩ w2Collab w2Info (Or.inr (by decide)) rfl

/-- Annotation set for the C3 counterexample: the inject-control key
maps to "false" and the sidecar-status key is absent. -/
def c3Ann : List (String × String) := [(injectAnnotationKey, "false")]

/-- Counterexample to C3 as stated: with the inject-control annotation
parsing to false and the sidecar-status key absent, the later
sidecar-status rule IS still evaluated — both exclusion reasons are
reported (main.go lines 208-220 run both checks unconditionally), so the
audit trail is not the single reason `excludedByInject` the
first-matching-rule-wins reading predicts. -/
theorem c3_counterexample :
    loggedExclusions c3Ann = [.excludedByInject, .excludedMissingSidecarStatus] ∧
    ¬ loggedExclusions c3Ann = [.excludedByInject] := by
  constructor
  · rfl
  · intro h
    exact absurd (congrArg List.length h) (by decide)

/-- Claim C3 amended: rule 1 (proxy/container count) genuinely
short-circuits, but among the annotation rules the code evaluates both
and each triggering rule logs its reason; the inject-disabled reason is
always reported first, so for a proxied multi-container pod whose
inject annotation parses as false the decision audit (the first logged
reason) is `excludedByInject` even when the sidecar-status key is also
absent, and the pod is excluded. -/
theorem c3_inject_reason_first (info : PodInfo)
    (hproxy : info.hasProxy = true) (hcount : info.containers.length > 1)
    (hinj : injectDisabled info.annotations = true) :
    evalEligibility info = .excludedByInject ∧
    (loggedExclusions info.annotations).head? = some .excludedByInject ∧
    excludeByAnnotations info.annotations = true := by
  have hl : loggedExclusions info.annotations =
      .excludedByInject :: (if sidecarStatusAbsent info.annotations then
        [.excludedMissingSidecarStatus] else []) := by
    simp [loggedExclusions, hinj]
  refine ⟨?_, ?_, ?_⟩
  · simp [evalEligibility, hproxy, hcount, hl]
  · rw [hl]; rfl
  · simp [excludeByAnnotations, hinj]

/-- Pod metadata for the C3 witness: inject annotation "false",
sidecar-status key absent. -/
def w3Info : PodInfo := ⟨true, ["app", "istio-proxy"], c3Ann, ["9080"], 1337, 1337⟩

/-- Witness for the amended C3 at a concrete pod. -/
theorem c3_witness :
    evalEligibility w3Info = .excludedByInject ∧
    (loggedExclusions w3Info.annotations).head? = some .excludedByInject ∧
    excludeByAnnotations w3Info.annotations = true :=
  c3_inject_reason_first w3Info rfl (by decide) (by decide)

/-- Claim C4: a present inject-control annotation whose value does not
parse as a Go boolean never triggers exclusion; with the sidecar-status
key present (and proxy/container conditions met) the decision is
`allow`. -/
theorem c4_unparsable_inject_ignored (info : PodInfo) (v : String)
    (hproxy : info.hasProxy = true) (hcount : info.containers.length > 1)
    (hlook : info.annotations.lookup injectAnnotationKey = some v)
    (hparse : parseBool v = none)
    (hstatus : (info.annotations.lookup sidecarStatusKey).isSome = true) :
    injectDisabled info.annotations = false ∧ evalEligibility info = .allow := by
  have hinjF := injectDisabled_of_parse_fail _ _ hlook hparse
  have hstatF := sidecarStatusAbsent_of_present _ hstatus
  exact ⟨hinjF, by
    simp [evalEligibility, hproxy, hcount, loggedExclusions_eq_nil _ hinjF hstatF]⟩

/-- Pod metadata for the C4 witness: malformed inject value,
sidecar-status present. -/
def w4Info : PodInfo :=
  ⟨true, ["app", "istio-proxy"],
   [(injectAnnotationKey, "not-a-bool"), (sidecarStatusKey, "injected")], ["9080"], 1337, 1337⟩

/-- Witness for C4 at a concrete pod. -/
theorem c4_witness :
    injectDisabled w4Info.annotations = false ∧ evalEligibility w4Info = .allow :=
  c4_unparsable_inject_ignored w4Info "not-a-bool" rfl (by decide) (by decide) (by decide)
    (by decide)

/-- Claim C5: when the pod namespace or name is empty, or the namespace
is (case-sensitively, exactly) in the configured exclusion set, the ADD
performs no metadata query, builds no spec, invokes no executor, raises
no error, and completes with the no-redirect success outcome. -/
theorem c5_gate_short_circuit
    (g : Globals) (conf : PluginConf) (k : K8sArgs) (a : CmdArgs) (c : Collaborators)
    (h : k.K8S_POD_NAMESPACE = "" ∨ k.K8S_POD_NAME = "" ∨
         namespaceExcluded conf.kubernetes.excludeNamespaces k.K8S_POD_NAMESPACE = true) :
    (cmdAdd g conf k a c).trace.queryCount = 0 ∧
    (cmdAdd g conf k a c).trace.specBuilds = 0 ∧
    (cmdAdd g conf k a c).trace.execCalls = 0 ∧
    ∃ r, (cmdAdd g conf k a c).result = .ok r := by
  cases hp : conf.prevResult with
  | none =>
    rcases h with h | h | h
    · simp [cmdAdd, h, hp, Trace.execCalls]
    · simp [cmdAdd, h, hp, Trace.execCalls]
    · by_cases hgate : k.K8S_POD_NAMESPACE ≠ "" ∧ k.K8S_POD_NAME ≠ ""
      · simp [cmdAdd, hgate, h, hp, Trace.execCalls]
      · simp [cmdAdd, hgate, h, hp, Trace.execCalls]
  | some r =>
    rcases h with h | h | h
    · simp [cmdAdd, h, hp, Trace.execCalls]
    · simp [cmdAdd, h, hp, Trace.execCalls]
    · by_cases hgate : k.K8S_POD_NAMESPACE ≠ "" ∧ k.K8S_POD_NAME ≠ ""
      · simp [cmdAdd, hgate, h, hp, Trace.execCalls]
      · simp [cmdAdd, hgate, h, hp, Trace.execCalls]

/-- Configuration for the C5 witness: `kube-system` is excluded. -/
def c5Conf : PluginConf := ⟨⟨["kube-system"], "", ""⟩, none⟩

/-- Collaborators for the C5 witness: every external call would fail,
so the conclusion's zero call counts show none of them is reached. -/
def c5Collab : Collaborators :=
  ⟨.error "no client", .error "no query", fun _ _ => .error "no exec", none⟩

/-- Witness for C5: a pod in the excluded namespace `kube-system`. -/
theorem c5_witness :
    (cmdAdd initialGlobals c5Conf ⟨"podA", "kube-system"⟩ ⟨"cid0", "netnsA"⟩ c5Collab).trace.queryCount
      = 0 ∧
    (cmdAdd initialGlobals c5Conf ⟨"podA", "kube-system"⟩ ⟨"cid0", "netnsA"⟩ c5Collab).trace.specBuilds
      = 0 ∧
    (cmdAdd initialGlobals c5Conf ⟨"podA", "kube-system"⟩ ⟨"cid0", "netnsA"⟩ c5Collab).trace.execCalls
      = 0 ∧
    ∃ r, (cmdAdd initialGlobals c5Conf ⟨"podA", "kube-system"⟩ ⟨"cid0", "netnsA"⟩ c5Collab).result
      = .ok r :=
  c5_gate_short_circuit initialGlobals c5Conf ⟨"podA", "kube-system"⟩ ⟨"cid0", "netnsA"⟩
    c5Collab (Or.inr (Or.inr (by decide)))

/-- Claim C6: the redirect-spec builder given an empty ports list always
fails with `invalidRedirectParameters`, whatever proxyUID/proxyGID are
supplied (even valid non-negative identities). -/
theorem c6_empty_ports_always_fail (proxyUID proxyGID : Int)
    (ann : List (String × String)) :
    NewRedirect proxyUID proxyGID [] ann = .error .invalidRedirectParameters := rfl

/-- Decomposition of an `allow` decision: the proxy/container branch was
taken and the `excludePod` flag stayed false. -/
lemma eligibility_allow_parts (info : PodInfo) (hallow : evalEligibility info = .allow) :
    (info.hasProxy = true ∧ info.containers.length > 1) ∧
    excludeByAnnotations info.annotations = false := by
  by_cases hb : info.hasProxy = true ∧ info.containers.length > 1
  · refine ⟨hb, ?_⟩
    by_cases h1 : injectDisabled info.annotations = true
    · exfalso
      simp [evalEligibility, hb.1, hb.2, loggedExclusions, h1] at hallow
    · by_cases h2 : sidecarStatusAbsent info.annotations = true
      · exfalso
        simp [evalEligibility, hb.1, hb.2, loggedExclusions, h1, h2] at hallow
      · simp [Bool.not_eq_true] at h1 h2
        simp [excludeByAnnotations, h1, h2]
  · exfalso
    simp [evalEligibility, hb] at hallow

/-- Claim C7: when the decision is `allow` and RedirectSpec construction
fails, the whole ADD terminates with that construction error (a hard
error), not a no-redirect success. -/
theorem c7_spec_failure_aborts_add
    (g : Globals) (conf : PluginConf) (k : K8sArgs) (a : CmdArgs) (c : Collaborators)
    (info : PodInfo) (e : RedirectErr)
    (hns : k.K8S_POD_NAMESPACE ≠ "") (hname : k.K8S_POD_NAME ≠ "")
    (hexc : namespaceExcluded conf.kubernetes.excludeNamespaces k.K8S_POD_NAMESPACE = false)
    (hclient : c.newKubeClient = .ok ())
    (hquery : c.getKubePodInfo = .ok info)
    (hallow : evalEligibility info = .allow)
    (hfail : NewRedirect info.proxyUID info.proxyGID info.ports info.annotations = .error e) :
    (cmdAdd g conf k a c).result = .error (.redirectParamsErr e) := by
  obtain ⟨⟨hproxy, hcount⟩, hannF⟩ := eligibility_allow_parts info hallow
  simp [cmdAdd, hns, hname, hexc, hclient, hquery, hproxy, hcount, hannF, hfail]

/-- Pod metadata for the C7 witness: eligible pod but an empty declared
port list, so spec construction fails. -/
def w7Info : PodInfo :=
  ⟨true, ["app", "istio-proxy"], [(sidecarStatusKey, "injected")], [], 1337, 1337⟩

/-- Collaborators for the C7 witness. -/
def w7Collab : Collaborators := ⟨.ok (), .ok w7Info, fun _ _ => .ok (), none⟩

/-- Witness for C7 at a concrete pod with no declared ports. -/
theorem c7_witness :
    (cmdAdd initialGlobals confEmpty ⟨"podA", "default"⟩ ⟨"cid0", "netnsA"⟩ w7Collab).result
      = .error (.redirectParamsErr .invalidRedirectParameters) :=
  c7_spec_failure_aborts_add initialGlobals confEmpty ⟨"podA", "default"⟩ ⟨"cid0", "netnsA"⟩
    w7Collab w7Info .invalidRedirectParameters (by decide) (by decide) rfl rfl rfl (by decide)
    rfl

/-- Collaborators for the C8 counterexample: an override executor is
installed and it fails. -/
def c8OverrideCollab : Collaborators :=
  ⟨.ok (), .ok w1Info, fun _ _ => .ok (), some (fun _ _ => .error "override executor failed")⟩

/-- Counterexample to C8 as stated: with a substituted override executor
that returns an error, the executor is invoked (overrideCalls = 1) but
main.go line 228 discards its result (`_ = setupRedirect(...)`), so the
ADD still reports success — the executor's result is NOT surfaced for
every executor implementation. -/
theorem c8_counterexample :
    (cmdAdd initialGlobals confEmpty ⟨"podA", "default"⟩ ⟨"cid0", "netnsA"⟩
      c8OverrideCollab).trace.overrideCalls = 1 ∧
    (cmdAdd initialGlobals confEmpty ⟨"podA", "default"⟩ ⟨"cid0", "netnsA"⟩
      c8OverrideCollab).result = .ok .fresh := by
  constructor <;> rfl

/-- Claim C8 amended: when no override hook is installed, the production
executor's result is surfaced verbatim — an executor error becomes the
ADD's terminal error and executor success yields ADD success; when an
override hook is installed it is invoked but its result is discarded and
the ADD reports success regardless. -/
theorem c8_production_result_surfaced
    (g : Globals) (conf : PluginConf) (k : K8sArgs) (a : CmdArgs) (c : Collaborators)
    (info : PodInfo) (spec : RedirectSpec)
    (hns : k.K8S_POD_NAMESPACE ≠ "") (hname : k.K8S_POD_NAME ≠ "")
    (hexc : namespaceExcluded conf.kubernetes.excludeNamespaces k.K8S_POD_NAMESPACE = false)
    (hclient : c.newKubeClient = .ok ())
    (hquery : c.getKubePodInfo = .ok info)
    (hallow : evalEligibility info = .allow)
    (hspec : NewRedirect info.proxyUID info.proxyGID info.ports info.annotations = .ok spec) :
    (c.setupRedirect = none →
      (∀ e, c.doRedirect spec a.netns = .error e →
        (cmdAdd g conf k a c).result = .error (.executorErr e)) ∧
      (c.doRedirect spec a.netns = .ok () →
        ∃ r, (cmdAdd g conf k a c).result = .ok r)) ∧
    (∀ f, c.setupRedirect = some f → ∃ r, (cmdAdd g conf k a c).result = .ok r) := by
  obtain ⟨⟨hproxy, hcount⟩, hannF⟩ := eligibility_allow_parts info hallow
  constructor
  · intro hs
    constructor
    · intro e hd
      simp [cmdAdd, hns, hname, hexc, hclient, hquery, hproxy, hcount, hannF, hspec, hs, hd]
    · intro hd
      cases hp : conf.prevResult with
      | none =>
        exact ⟨.fresh, by
          simp [cmdAdd, hns, hname, hexc, hclient, hquery, hproxy, hcount, hannF, hspec, hs,
            hd, hp]⟩
      | some r =>
        exact ⟨.passthrough r, by
          simp [cmdAdd, hns, hname, hexc, hclient, hquery, hproxy, hcount, hannF, hspec, hs,
            hd, hp]⟩
  · intro f hs
    cases hp : conf.prevResult with
    | none =>
      exact ⟨.fresh, by
        simp [cmdAdd, hns, hname, hexc, hclient, hquery, hproxy, hcount, hannF, hspec, hs, hp]⟩
    | some r =>
      exact ⟨.passthrough r, by
        simp [cmdAdd, hns, hname, hexc, hclient, hquery, hproxy, hcount, hannF, hspec, hs, hp]⟩

/-- Collaborators for the C8 witness: production executor fails, no
override installed. -/
def c8ProdCollab : Collaborators :=
  ⟨.ok (), .ok w1Info, fun _ _ => .error "iptables failed", none⟩

/-- Witness for the amended C8: the production executor's error becomes
the ADD's terminal error. -/
theorem c8_witness :
    (cmdAdd initialGlobals confEmpty ⟨"podA", "default"⟩ ⟨"cid0", "netnsA"⟩ c8ProdCollab).result
      = .error (.executorErr "iptables failed") :=
  ((c8_production_result_surfaced initialGlobals confEmpty ⟨"podA", "default"⟩
    ⟨"cid0", "netnsA"⟩ c8ProdCollab w1Info
    ⟨w1Info.proxyUID, w1Info.proxyGID, w1Info.ports, w1Info.annotations⟩
    (by decide) (by decide) rfl rfl rfl (by decide) rfl).1 rfl).1 "iptables failed" rfl

/-- Every path of `cmdAdd` carries the same updated globals: the values
assigned by main.go lines 161-166 before any gate or query runs. -/
lemma cmdAdd_globals (g : Globals) (conf : PluginConf) (k : K8sArgs) (a : CmdArgs)
    (c : Collaborators) :
    (cmdAdd g conf k a c).globals =
      ⟨if conf.kubernetes.cniBinDir ≠ "" then conf.kubernetes.cniBinDir else g.nsSetupBinDir,
       if conf.kubernetes.iptablesScript ≠ "" then conf.kubernetes.iptablesScript
         else g.nsSetupProg⟩ := by
  simp only [cmdAdd]
  repeat' split
  all_goals rfl

/-- Configuration for the C9 counterexample: a non-empty `cni_bin_dir`. -/
def c9Conf : PluginConf := ⟨⟨[], "/custom/bin", ""⟩, none⟩

/-- Counterexample to C9 as stated: an ADD whose configuration carries a
non-empty `cni_bin_dir` writes the process-global `nsSetupBinDir`
(main.go lines 161-163), so the globals are NOT left unchanged, and a
second invocation whose configuration leaves the field empty observes
the value written by the first invocation instead of the initial
default. -/
theorem c9_counterexample :
    (cmdAdd initialGlobals c9Conf ⟨"", ""⟩ ⟨"", ""⟩ c5Collab).globals ≠ initialGlobals ∧
    (cmdAdd (cmdAdd initialGlobals c9Conf ⟨"", ""⟩ ⟨"", ""⟩ c5Collab).globals confEmpty
      ⟨"", ""⟩ ⟨"", ""⟩ c5Collab).globals.nsSetupBinDir = "/custom/bin" := by
  constructor
  · intro h
    exact absurd (congrArg Globals.nsSetupBinDir h) (by decide)
  · rfl

/-- Claim C9 amended: `cmdAdd` leaves the process-global configuration
variables unchanged only when the configuration supplies neither a
`cni_bin_dir` nor an `iptables_script`; whenever either field is
non-empty, the corresponding global is overwritten with it, and later
invocations observe the written value. -/
theorem c9_globals_mutation (g : Globals) (conf : PluginConf) (k : K8sArgs) (a : CmdArgs)
    (c : Collaborators) :
    (conf.kubernetes.cniBinDir = "" ∧ conf.kubernetes.iptablesScript = "" →
      (cmdAdd g conf k a c).globals = g) ∧
    (conf.kubernetes.cniBinDir ≠ "" →
      (cmdAdd g conf k a c).globals.nsSetupBinDir = conf.kubernetes.cniBinDir) ∧
    (conf.kubernetes.iptablesScript ≠ "" →
      (cmdAdd g conf k a c).globals.nsSetupProg = conf.kubernetes.iptablesScript) := by
  refine ⟨?_, ?_, ?_⟩
  · rintro ⟨h1, h2⟩
    rw [cmdAdd_globals]
    simp [h1, h2]
  · intro h
    rw [cmdAdd_globals]
    simp [h]
  · intro h
    rw [cmdAdd_globals]
    simp [h]

/-- Witness for the amended C9: with both configuration fields empty the
globals are unchanged. -/
theorem c9_witness :
    (cmdAdd initialGlobals confEmpty ⟨"podA", "default"⟩ ⟨"cid0", "netnsA"⟩ c5Collab).globals
      = initialGlobals :=
  (c9_globals_mutation initialGlobals confEmpty ⟨"podA", "default"⟩ ⟨"cid0", "netnsA"⟩
    c5Collab).1 ⟨rfl, rfl⟩

/-- Claim C10: the inject-control annotation excludes the pod for every
value Go's strconv.ParseBool maps to false ("0", "f", "F", "false",
"FALSE", "False"), and for every value it maps to true ("1", "t", "T",
"true", "TRUE", "True") the annotation does not trigger exclusion —
with the sidecar-status key present and the proxy/container conditions
met, those values yield `allow`. -/
theorem c10_parseBool_full_mapping (info : PodInfo) (v : String)
    (hproxy : info.hasProxy = true) (hcount : info.containers.length > 1)
    (hlook : info.annotations.lookup injectAnnotationKey = some v)
    (hstatus : (info.annotations.lookup sidecarStatusKey).isSome = true) :
    (v ∈ ["0", "f", "F", "false", "FALSE", "False"] →
      evalEligibility info = .excludedByInject) ∧
    (v ∈ ["1", "t", "T", "true", "TRUE", "True"] → evalEligibility info = .allow) := by
  have hstatF := sidecarStatusAbsent_of_present _ hstatus
  constructor
  · intro hv
    have hp : parseBool v = some false := by
      simp only [List.mem_cons, List.not_mem_nil, or_false] at hv
      rcases hv with rfl | rfl | rfl | rfl | rfl | rfl <;> decide
    have hinjT : injectDisabled info.annotations = true := by
      simpa using injectDisabled_of_parse _ _ false hlook hp
    simp [evalEligibility, hproxy, hcount, loggedExclusions, hinjT]
  · intro hv
    have hp : parseBool v = some true := by
      simp only [List.mem_cons, List.not_mem_nil, or_false] at hv
      rcases hv with rfl | rfl | rfl | rfl | rfl | rfl <;> decide
    have hinjF : injectDisabled info.annotations = false := by
      simpa using injectDisabled_of_parse _ _ true hlook hp
    simp [evalEligibility, hproxy, hcount, loggedExclusions_eq_nil _ hinjF hstatF]

/-- Pod metadata for the C10 witness: inject value "F" (a ParseBool
false literal distinct from "false"). -/
def w10Info : PodInfo :=
  ⟨true, ["app", "istio-proxy"],
   [(injectAnnotationKey, "F"), (sidecarStatusKey, "injected")], ["9080"], 1337, 1337⟩

/-- Witness for C10: the value "F" excludes the pod. -/
theorem c10_witness : evalEligibility w10Info = .excludedByInject :=
  (c10_parseBool_full_mapping w10Info "F" rfl (by decide) (by decide) (by decide)).1
    (by decide)

end IstioCni
